import Mathlib

/-!
A shallow embedding of the mbserver Modbus slave engine (`server.go`):
the register store, the function dispatch table, request handling, the
serializer loop, and checkpoint save/restore, together with theorems about
the engine's behaviour.
-/

namespace Mbserver

/-- Modelled from the spec: the `Exception` type (defined outside
`server.go`) is "an enumerated protocol-level error code plus description". -/
structure Exception where
  code : Nat
  description : String
deriving DecidableEq, Repr

/-- Modelled from the spec: the package-level `Success` exception value, the
distinguished "no exception" value. -/
def Success : Exception := ⟨0, "Success"⟩

/-- Modelled from the spec: the package-level `IllegalFunction` exception
value, returned by the dispatcher itself when no handler is registered. -/
def IllegalFunction : Exception := ⟨1, "IllegalFunction"⟩

/-- A Go `*Exception` as `handle` sees it: the address of one of the
canonical package-level exception variables, or a pointer to some other
`Exception` allocation (`addr` distinguishes allocations). Go pointer
comparison (`exception != &Success`) is constructor comparison here, so a
fresh allocation is never equal to `ExcPtr.success` even when it holds the
same `Exception` value. -/
inductive ExcPtr where
  | success
  | illegalFunction
  | fresh (addr : Nat) (val : Exception)
deriving DecidableEq, Repr

/-- The `Exception` value an `ExcPtr` dereferences to. -/
def ExcPtr.deref : ExcPtr → Exception
  | .success => Success
  | .illegalFunction => IllegalFunction
  | .fresh _ v => v

/-- Modelled from the spec: the observable state of a `Framer` (the frame
abstraction lives outside `server.go`): `GetFunction` returns `function`,
`GetData` returns `data`. -/
structure Frame where
  function : Fin 256
  data : List Nat
deriving DecidableEq, Repr

/-- The response template produced by `Framer.Copy`, instrumented to record
whether `SetData` and `SetException` were invoked on it and with what
arguments (`none` means the setter was never called). -/
structure Response where
  template : Frame
  dataSet : Option (List Nat)
  excSet : Option ExcPtr
deriving DecidableEq, Repr

/-- `request.frame.Copy()`: a fresh response template; no setter has been
called on it yet. -/
def Frame.copy (f : Frame) : Response := ⟨f, none, none⟩

/-- `response.SetData(data)`. -/
def Response.setData (r : Response) (d : List Nat) : Response :=
  { r with dataSet := some d }

/-- `response.SetException(exception)`. -/
def Response.setException (r : Response) (e : ExcPtr) : Response :=
  { r with excSet := some e }

/-- The four Modbus memory arrays of `Server` (`server.go` lines 28-31). -/
structure RegisterStore where
  DiscreteInputs : List Nat
  Coils : List Nat
  HoldingRegisters : List Nat
  InputRegisters : List Nat
deriving DecidableEq, Repr

/-- A function handler `func(*Server, Framer) ([]byte, *Exception)`: through
the server pointer it may mutate the register arrays, so it maps the store
and the request frame to the updated store, the payload bytes and the
returned exception pointer. (Lean forbids table entries that take the whole
`Server` recursively; the register store is all the handlers touch.) -/
def Handler := RegisterStore → Frame → RegisterStore × List Nat × ExcPtr

/-- The `Server` struct (`server.go` lines 21-32): the `Debug` flag, the
four register arrays and the 256-entry dispatch table `function`, where a
Go `nil` entry is `none`. -/
structure Server where
  Debug : Bool
  store : RegisterStore
  function : Fin 256 → Option Handler

/-- The connection of a request, modelled by the outcome its `Write` call
returns (Go `(int, error)`): `Except.error` is a failed write. -/
structure Conn where
  writeResult : Except String Nat
deriving Repr

/-- `Request` (`server.go` lines 35-38) pairs the connection with the
decoded frame. -/
structure Request where
  conn : Conn
  frame : Frame
deriving Repr

/-- Assignment `t[c] = f` on the dispatch table, as a function update. -/
def tset (t : Fin 256 → Option Handler) (c : Fin 256) (f : Option Handler) :
    Fin 256 → Option Handler :=
  fun a => if a = c then f else t a

/-- Modelled from the spec: the eight standard handlers live outside
`server.go` and their bit/register semantics are explicitly out of the
spec's scope, so each is an abstract named handler distinguished by its
function-code tag. -/
def defaultHandler (tag : Nat) : Handler :=
  fun store _ => (store, [tag], ExcPtr.success)

/-- Modelled from the spec: `ReadCoils`, the standard handler for code 1. -/
def ReadCoils : Handler := defaultHandler 1

/-- Modelled from the spec: `ReadDiscreteInputs`, standard handler, code 2. -/
def ReadDiscreteInputs : Handler := defaultHandler 2

/-- Modelled from the spec: `ReadHoldingRegisters`, standard handler,
code 3. -/
def ReadHoldingRegisters : Handler := defaultHandler 3

/-- Modelled from the spec: `ReadInputRegisters`, standard handler, code 4. -/
def ReadInputRegisters : Handler := defaultHandler 4

/-- Modelled from the spec: `WriteSingleCoil`, standard handler, code 5. -/
def WriteSingleCoil : Handler := defaultHandler 5

/-- Modelled from the spec: `WriteHoldingRegister`, standard handler,
code 6. -/
def WriteHoldingRegister : Handler := defaultHandler 6

/-- Modelled from the spec: `WriteMultipleCoils`, standard handler,
code 15. -/
def WriteMultipleCoils : Handler := defaultHandler 15

/-- Modelled from the spec: `WriteHoldingRegisters`, standard handler,
code 16. -/
def WriteHoldingRegisters : Handler := defaultHandler 16

/-- `Server.handle` (`server.go` lines 74-95): copy the request frame into a
response template; if a handler is registered for the frame's function code,
invoke it and attach its payload with `SetData`, otherwise take the address
of `IllegalFunction` and attach no payload; finally call `SetException`
unless the exception pointer is the address of `Success`. Returns the
response together with the server whose store the handler may have updated.
(The `log.Printf` on line 78 is modelled by `handleLog` below.) -/
def handle (s : Server) (request : Request) : Response × Server :=
  let response := Frame.copy request.frame
  let fc := request.frame.function
  match s.function fc with
  | some f =>
      let res := f s.store request.frame
      let exception := res.2.2
      let response := response.setData res.2.1
      (if exception = ExcPtr.success then response
       else response.setException exception,
       { s with store := res.1 })
  | none =>
      let exception := ExcPtr.illegalFunction
      (if exception = ExcPtr.success then response
       else response.setException exception,
       s)

/-- The log line `handle` prints for every request (`server.go` line 78). -/
def handleLog (request : Request) : String :=
  "function: " ++ toString request.frame.function.val ++
    ", value: " ++ toString request.frame.data

/-- The observable effects of one iteration of the serializer loop: the log
lines it emitted, the response it built, and what `conn.Write` returned. -/
structure StepResult where
  logs : List String
  response : Response
  writeOutcome : Except String Nat
deriving Repr

/-- One iteration of `Server.handler` (`server.go` lines 98-104): receive a
request, handle it, write the response bytes to the connection. The Go code
discards both return values of `conn.Write`: the next server state and the
emitted log lines do not depend on `writeOutcome`. -/
def handlerStep (s : Server) (request : Request) : Server × StepResult :=
  let hres := handle s request
  (hres.2,
   { logs := [handleLog request], response := hres.1,
     writeOutcome := request.conn.writeResult })

/-- The serializer loop `Server.handler`, run over a finite intake stream:
requests are processed strictly one at a time, each to completion. -/
def handler : Server → List Request → Server × List StepResult
  | s, [] => (s, [])
  | s, request :: rest =>
      let step := handlerStep s request
      let tail := handler step.1 rest
      (tail.1, step.2 :: tail.2)

/-- `StateObject` (`server.go` lines 116-121): the snapshot of the four
register arrays used for checkpointing. -/
structure StateObject where
  DiscreteInputs : List Nat
  Coils : List Nat
  HoldingRegisters : List Nat
  InputRegisters : List Nat
deriving DecidableEq, Repr

/-- Modelled from the spec: the gob encoding of a `StateObject` (the
`encoding/gob` package is outside the repository) — a self-describing binary
encoding of exactly four arrays in order, here a length-prefixed
concatenation. -/
def gobEncode (so : StateObject) : List Nat :=
  (so.DiscreteInputs.length :: so.DiscreteInputs) ++
  (so.Coils.length :: so.Coils) ++
  (so.HoldingRegisters.length :: so.HoldingRegisters) ++
  (so.InputRegisters.length :: so.InputRegisters)

/-- Decode one length-prefixed array, returning it and the remaining
bytes; `none` is a malformed stream. -/
def decodeArray : List Nat → Option (List Nat × List Nat)
  | [] => none
  | n :: rest => if n ≤ rest.length then some (rest.take n, rest.drop n) else none

/-- Modelled from the spec: gob decoding of a `StateObject`; `none` is a
decode failure. Trailing bytes after the decoded value are ignored, as a gob
decoder reads exactly one value from its stream. -/
def gobDecode (bytes : List Nat) : Option StateObject := do
  let (d, r1) ← decodeArray bytes
  let (c, r2) ← decodeArray r1
  let (h, r3) ← decodeArray r2
  let (i, _) ← decodeArray r3
  some ⟨d, c, h, i⟩

/-- `Server.saveState` (`server.go` lines 123-144): snapshot the four arrays
into a `StateObject`, gob-encode it and write it to the checkpoint file;
this is the file contents written. Encode and write failures are `log.Fatal`
and cannot arise in the model. -/
def saveState (s : Server) : List Nat :=
  let so : StateObject :=
    { DiscreteInputs := s.store.DiscreteInputs,
      Coils := s.store.Coils,
      HoldingRegisters := s.store.HoldingRegisters,
      InputRegisters := s.store.InputRegisters }
  gobEncode so

/-- `Server.restoreState` (`server.go` lines 146-167), with `checkpoint` the
contents of the `modbus.state` file (`none` when the file does not exist):
when the file exists, gob-decode it and overwrite the four register arrays
with the decoded contents (no length validation); a decode failure is
`log.Fatal`, modelled as `none`. When the file is absent nothing happens. -/
def restoreState (s : Server) (checkpoint : Option (List Nat)) : Option Server :=
  match checkpoint with
  | none => some s
  | some bytes =>
      match gobDecode bytes with
      | none => none
      | some so =>
          some { s with store :=
            { DiscreteInputs := so.DiscreteInputs,
              Coils := so.Coils,
              HoldingRegisters := so.HoldingRegisters,
              InputRegisters := so.InputRegisters } }

/-- The server as `NewServer` (`server.go` lines 41-67) has built it right
before the `restoreState` call: the four arrays allocated with 65536 zeroed
entries and the eight default handlers installed in an otherwise empty
dispatch table, in source order. -/
def initialServer : Server :=
  let t0 : Fin 256 → Option Handler := fun _ => none
  let t1 := tset t0 1 (some ReadCoils)
  let t2 := tset t1 2 (some ReadDiscreteInputs)
  let t3 := tset t2 3 (some ReadHoldingRegisters)
  let t4 := tset t3 4 (some ReadInputRegisters)
  let t5 := tset t4 5 (some WriteSingleCoil)
  let t6 := tset t5 6 (some WriteHoldingRegister)
  let t7 := tset t6 15 (some WriteMultipleCoils)
  let t8 := tset t7 16 (some WriteHoldingRegisters)
  { Debug := false,
    store :=
      { DiscreteInputs := List.replicate 65536 0,
        Coils := List.replicate 65536 0,
        HoldingRegisters := List.replicate 65536 0,
        InputRegisters := List.replicate 65536 0 },
    function := t8 }

/-- `NewServer` (`server.go` lines 41-67): allocate the arrays, install the
default handlers, then restore the checkpoint; only after `restoreState`
returns are the request channel created and the `handler` loop started, so
the loop always starts from the server returned here. `none` is the fatal
restore case. -/
def NewServer (checkpoint : Option (List Nat)) : Option Server :=
  restoreState initialServer checkpoint

/-- A complete run of the engine: construct the server against the given
checkpoint contents, then let the started `handler` loop process the intake
stream. -/
def runServer (checkpoint : Option (List Nat)) (reqs : List Request) :
    Option (Server × List StepResult) :=
  (NewServer checkpoint).map (fun s => handler s reqs)

/-- `Server.RegisterFunctionHandler` (`server.go` lines 70-72): overwrite
the table entry for `funcCode`, unconditionally. -/
def RegisterFunctionHandler (s : Server) (funcCode : Fin 256) (f : Handler) :
    Server :=
  { s with function := tset s.function funcCode (some f) }

/-! Helper lemmas shared by the theorems below. -/

theorem tset_same (t : Fin 256 → Option Handler) (c : Fin 256) (f : Option Handler) :
    tset t c f c = f := by
  simp [tset]

theorem tset_noteq (t : Fin 256 → Option Handler) (c a : Fin 256) (f : Option Handler)
    (h : a ≠ c) : tset t c f a = t a := by
  simp [tset, h]

theorem handle_some (s : Server) (request : Request) (f : Handler)
    (hf : s.function request.frame.function = some f) :
    handle s request =
      (⟨request.frame, some (f s.store request.frame).2.1,
        if (f s.store request.frame).2.2 = ExcPtr.success then none
        else some (f s.store request.frame).2.2⟩,
       { s with store := (f s.store request.frame).1 }) := by
  unfold handle
  dsimp only
  rw [hf]
  by_cases h : (f s.store request.frame).2.2 = ExcPtr.success <;>
    simp [h, Frame.copy, Response.setData, Response.setException]

theorem handle_none (s : Server) (request : Request)
    (hn : s.function request.frame.function = none) :
    handle s request = (⟨request.frame, none, some ExcPtr.illegalFunction⟩, s) := by
  unfold handle
  dsimp only
  rw [hn]
  simp [Frame.copy, Response.setException]

theorem take_length_append (l r : List Nat) : (l ++ r).take l.length = l := by
  induction l with
  | nil => rfl
  | cons a t ih => simp [ih]

theorem drop_length_append (l r : List Nat) : (l ++ r).drop l.length = r := by
  induction l with
  | nil => rfl
  | cons a t ih => simp [ih]

theorem decodeArray_encode (l rest : List Nat) :
    decodeArray (l.length :: (l ++ rest)) = some (l, rest) := by
  simp [decodeArray, take_length_append, drop_length_append]

theorem decodeArray_encode_nil (l : List Nat) :
    decodeArray (l.length :: l) = some (l, []) := by
  have h := decodeArray_encode l []
  simpa using h

theorem gobDecode_gobEncode (so : StateObject) : gobDecode (gobEncode so) = some so := by
  simp [gobDecode, gobEncode, decodeArray_encode, decodeArray_encode_nil]

/-! Claim theorems. -/

/-- C1: for every request whose frame's function code has no registered
handler in the dispatch table, `handle` produces a response carrying the
`IllegalFunction` exception, never calls `SetData` on the response (no
payload attached), and leaves all four `RegisterStore` arrays unchanged. -/
theorem handle_unregistered (s : Server) (request : Request)
    (hn : s.function request.frame.function = none) :
    (handle s request).1.excSet = some ExcPtr.illegalFunction ∧
    (handle s request).1.dataSet = none ∧
    (handle s request).2.store.DiscreteInputs = s.store.DiscreteInputs ∧
    (handle s request).2.store.Coils = s.store.Coils ∧
    (handle s request).2.store.HoldingRegisters = s.store.HoldingRegisters ∧
    (handle s request).2.store.InputRegisters = s.store.InputRegisters := by
  rw [handle_none s request hn]
  exact ⟨rfl, rfl, rfl, rfl, rfl, rfl⟩

/-- Witness for C1: function code 99 is unregistered on the freshly
constructed server, and handling such a request yields `IllegalFunction`
with no payload and unchanged arrays. -/
theorem handle_unregistered_witness :
    initialServer.function 99 = none ∧
    ((handle initialServer ⟨⟨Except.ok 0⟩, ⟨99, [7]⟩⟩).1.excSet = some ExcPtr.illegalFunction ∧
     (handle initialServer ⟨⟨Except.ok 0⟩, ⟨99, [7]⟩⟩).1.dataSet = none ∧
     (handle initialServer ⟨⟨Except.ok 0⟩, ⟨99, [7]⟩⟩).2.store.DiscreteInputs =
       initialServer.store.DiscreteInputs ∧
     (handle initialServer ⟨⟨Except.ok 0⟩, ⟨99, [7]⟩⟩).2.store.Coils =
       initialServer.store.Coils ∧
     (handle initialServer ⟨⟨Except.ok 0⟩, ⟨99, [7]⟩⟩).2.store.HoldingRegisters =
       initialServer.store.HoldingRegisters ∧
     (handle initialServer ⟨⟨Except.ok 0⟩, ⟨99, [7]⟩⟩).2.store.InputRegisters =
       initialServer.store.InputRegisters) :=
  ⟨rfl, handle_unregistered initialServer ⟨⟨Except.ok 0⟩, ⟨99, [7]⟩⟩ rfl⟩

/-- C3: for every registered handler, `handle` builds the response by
copying the request frame, invokes the handler, always attaches the
returned payload via `SetData`, and calls `SetException` if and only if the
returned exception is not `Success`. -/
theorem handle_registered (s : Server) (request : Request) (f : Handler)
    (hf : s.function request.frame.function = some f) :
    (handle s request).1.template = request.frame ∧
    (handle s request).1.dataSet = some (f s.store request.frame).2.1 ∧
    ((handle s request).1.excSet =
      if (f s.store request.frame).2.2 = ExcPtr.success then none
      else some (f s.store request.frame).2.2) ∧
    (handle s request).2.store = (f s.store request.frame).1 := by
  rw [handle_some s request f hf]
  exact ⟨rfl, rfl, rfl, rfl⟩

/-- Witness for C3: code 1 dispatches to `ReadCoils` on the fresh server;
the payload is attached and, the exception being `Success`, `SetException`
is never called. -/
theorem handle_registered_witness :
    initialServer.function 1 = some ReadCoils ∧
    ((handle initialServer ⟨⟨Except.ok 0⟩, ⟨1, [2, 3]⟩⟩).1.template = (⟨1, [2, 3]⟩ : Frame) ∧
     (handle initialServer ⟨⟨Except.ok 0⟩, ⟨1, [2, 3]⟩⟩).1.dataSet =
       some (ReadCoils initialServer.store ⟨1, [2, 3]⟩).2.1 ∧
     ((handle initialServer ⟨⟨Except.ok 0⟩, ⟨1, [2, 3]⟩⟩).1.excSet =
       if (ReadCoils initialServer.store ⟨1, [2, 3]⟩).2.2 = ExcPtr.success then none
       else some (ReadCoils initialServer.store ⟨1, [2, 3]⟩).2.2) ∧
     (handle initialServer ⟨⟨Except.ok 0⟩, ⟨1, [2, 3]⟩⟩).2.store =
       (ReadCoils initialServer.store ⟨1, [2, 3]⟩).1) :=
  ⟨rfl, handle_registered initialServer ⟨⟨Except.ok 0⟩, ⟨1, [2, 3]⟩⟩ ReadCoils rfl⟩

/-- C9: `handle` decides whether to attach an exception by pointer identity
with the package-level `Success` variable: `SetException` is suppressed
exactly when the handler returned the address of the canonical `Success`,
and a pointer to any other allocation is attached — even when the
allocation's value equals `Success` by value. -/
theorem handle_pointer_identity (s : Server) (request : Request) (f : Handler)
    (hf : s.function request.frame.function = some f) :
    ((handle s request).1.excSet = none ↔
      (f s.store request.frame).2.2 = ExcPtr.success) ∧
    (∀ addr val, (f s.store request.frame).2.2 = ExcPtr.fresh addr val →
      ExcPtr.deref (ExcPtr.fresh addr val) = Success →
      (handle s request).1.excSet = some (ExcPtr.fresh addr val)) := by
  rw [handle_some s request f hf]
  constructor
  · by_cases h : (f s.store request.frame).2.2 = ExcPtr.success <;> simp [h]
  · intro addr val hfr hval
    simp [hfr]

/-- A handler returning a fresh exception allocation whose pointed-to value
equals `Success`; it exercises the pointer-identity comparison. -/
def successValuedHandler : Handler :=
  fun store _ => (store, [], ExcPtr.fresh 0 Success)

/-- Witness for C9: a registered handler returning a fresh pointer to a
value equal to `Success` still gets `SetException` called with it. -/
theorem handle_pointer_identity_witness :
    (handle (RegisterFunctionHandler initialServer 65 successValuedHandler)
        ⟨⟨Except.ok 0⟩, ⟨65, []⟩⟩).1.excSet = some (ExcPtr.fresh 0 Success) :=
  (handle_pointer_identity (RegisterFunctionHandler initialServer 65 successValuedHandler)
      ⟨⟨Except.ok 0⟩, ⟨65, []⟩⟩ successValuedHandler rfl).2 0 Success rfl rfl

/-- C10: when the checkpoint file does not exist, `restoreState` leaves the
server completely unchanged — the very same `Server` value, all fields
(arrays, flag and dispatch table) included, is returned. -/
theorem restoreState_absent_identity (s : Server) : restoreState s none = some s := rfl

/-- C2: saving a server's state and then constructing a fresh server whose
`restoreState` reads the checkpoint just written yields a server whose four
arrays are element-for-element identical to the saved server's (round-trip
law). -/
theorem saveState_restoreState_roundtrip (s : Server) :
    ∃ t : Server, NewServer (some (saveState s)) = some t ∧
      t.store.DiscreteInputs = s.store.DiscreteInputs ∧
      t.store.Coils = s.store.Coils ∧
      t.store.HoldingRegisters = s.store.HoldingRegisters ∧
      t.store.InputRegisters = s.store.InputRegisters := by
  have h : gobDecode (saveState s) =
      some ⟨s.store.DiscreteInputs, s.store.Coils,
            s.store.HoldingRegisters, s.store.InputRegisters⟩ :=
    gobDecode_gobEncode _
  refine ⟨{ initialServer with store :=
    ⟨s.store.DiscreteInputs, s.store.Coils,
     s.store.HoldingRegisters, s.store.InputRegisters⟩ }, ?_, rfl, rfl, rfl, rfl⟩
  simp [NewServer, restoreState, h]

/-- C5: `restoreState` overwrites the arrays only when a checkpoint exists
(an absent file changes nothing), a decode failure is fatal (`none`, never a
partially-restored server), and restoration happens inside `NewServer`
before the `handler` loop starts: a run of the engine only ever applies the
loop to the fully restored server. -/
theorem restoreState_spec :
    (∀ s : Server, restoreState s none = some s) ∧
    (∀ (s : Server) (bytes : List Nat) (so : StateObject),
      gobDecode bytes = some so →
      restoreState s (some bytes) =
        some { s with store :=
          ⟨so.DiscreteInputs, so.Coils, so.HoldingRegisters, so.InputRegisters⟩ }) ∧
    (∀ (s : Server) (bytes : List Nat),
      gobDecode bytes = none → restoreState s (some bytes) = none) ∧
    (∀ checkpoint : Option (List Nat),
      NewServer checkpoint = restoreState initialServer checkpoint) ∧
    (∀ (checkpoint : Option (List Nat)) (reqs : List Request),
      runServer checkpoint reqs =
        (restoreState initialServer checkpoint).map (fun t => handler t reqs)) := by
  refine ⟨fun s => rfl, ?_, ?_, fun _ => rfl, fun _ _ => rfl⟩
  · intro s bytes so h
    simp [restoreState, h]
  · intro s bytes h
    simp [restoreState, h]

/-- Witness for C5: a concrete well-formed checkpoint is decoded and
overwrites the arrays, and a concrete malformed checkpoint is fatal. -/
theorem restoreState_spec_witness :
    restoreState initialServer (some [1, 1, 1, 2, 1, 3, 1, 4]) =
      some { initialServer with store := ⟨[1], [2], [3], [4]⟩ } ∧
    restoreState initialServer (some [5]) = none := by
  obtain ⟨_, hsome, hnone, _, _⟩ := restoreState_spec
  exact ⟨hsome initialServer [1, 1, 1, 2, 1, 3, 1, 4] ⟨[1], [2], [3], [4]⟩ rfl,
         hnone initialServer [5] rfl⟩

/-- C7: the freshly constructed server's dispatch table maps exactly the
codes 1, 2, 3, 4, 5, 6, 15 and 16 to the eight standard handlers, in that
correspondence, and every other function code has no registered handler. -/
theorem newServer_default_table :
    ∃ t : Server, NewServer none = some t ∧
      t.function 1 = some ReadCoils ∧
      t.function 2 = some ReadDiscreteInputs ∧
      t.function 3 = some ReadHoldingRegisters ∧
      t.function 4 = some ReadInputRegisters ∧
      t.function 5 = some WriteSingleCoil ∧
      t.function 6 = some WriteHoldingRegister ∧
      t.function 15 = some WriteMultipleCoils ∧
      t.function 16 = some WriteHoldingRegisters ∧
      ∀ c : Fin 256, c ∉ ([1, 2, 3, 4, 5, 6, 15, 16] : List (Fin 256)) →
        t.function c = none := by
  refine ⟨initialServer, rfl, rfl, rfl, rfl, rfl, rfl, rfl, rfl, rfl, ?_⟩
  intro c hc
  simp only [List.mem_cons, List.not_mem_nil, or_false, not_or] at hc
  obtain ⟨h1, h2, h3, h4, h5, h6, h15, h16⟩ := hc
  show tset (tset (tset (tset (tset (tset (tset (tset (fun _ => none)
    1 (some ReadCoils)) 2 (some ReadDiscreteInputs)) 3 (some ReadHoldingRegisters))
    4 (some ReadInputRegisters)) 5 (some WriteSingleCoil)) 6 (some WriteHoldingRegister))
    15 (some WriteMultipleCoils)) 16 (some WriteHoldingRegisters) c = none
  rw [tset_noteq _ 16 c _ h16, tset_noteq _ 15 c _ h15, tset_noteq _ 6 c _ h6,
      tset_noteq _ 5 c _ h5, tset_noteq _ 4 c _ h4, tset_noteq _ 3 c _ h3,
      tset_noteq _ 2 c _ h2, tset_noteq _ 1 c _ h1]

/-- Witness for C7: code 7 is outside the standard set and has no handler on
the fresh server. -/
theorem newServer_default_table_witness :
    ∃ t : Server, NewServer none = some t ∧ t.function 7 = none := by
  obtain ⟨t, ht, _, _, _, _, _, _, _, _, habsent⟩ := newServer_default_table
  exact ⟨t, ht, habsent 7 (by decide)⟩

/-- C8: `RegisterFunctionHandler` replaces the dispatch-table entry for the
given code unconditionally, whether or not one was registered before;
afterwards dispatch of a request with that code invokes the new handler,
while every other code's entry is unchanged. -/
theorem registerFunctionHandler_spec (s : Server) (funcCode : Fin 256) (f : Handler) :
    (RegisterFunctionHandler s funcCode f).function funcCode = some f ∧
    (∀ c : Fin 256, c ≠ funcCode →
      (RegisterFunctionHandler s funcCode f).function c = s.function c) ∧
    (∀ request : Request, request.frame.function = funcCode →
      (handle (RegisterFunctionHandler s funcCode f) request).1.dataSet =
        some (f s.store request.frame).2.1 ∧
      (handle (RegisterFunctionHandler s funcCode f) request).2.store =
        (f s.store request.frame).1) := by
  refine ⟨tset_same _ _ _, fun c hc => tset_noteq _ _ _ _ hc, ?_⟩
  intro request hreq
  have hf : (RegisterFunctionHandler s funcCode f).function request.frame.function = some f := by
    rw [hreq]
    exact tset_same _ _ _
  rw [handle_some _ request f hf]
  exact ⟨rfl, rfl⟩

/-- A custom handler returning fixed payload bytes, used in the C8
witness (the spec's code-65 scenario). -/
def fixedBytesHandler : Handler :=
  fun store _ => (store, [170, 187], ExcPtr.success)

/-- Witness for C8: registering a custom handler for code 65 (previously
unregistered) installs it, leaves code 3 untouched, and dispatch of a
code-65 request returns its fixed payload. -/
theorem registerFunctionHandler_spec_witness :
    (RegisterFunctionHandler initialServer 65 fixedBytesHandler).function 65 =
      some fixedBytesHandler ∧
    (RegisterFunctionHandler initialServer 65 fixedBytesHandler).function 3 =
      initialServer.function 3 ∧
    (handle (RegisterFunctionHandler initialServer 65 fixedBytesHandler)
        ⟨⟨Except.ok 0⟩, ⟨65, []⟩⟩).1.dataSet = some [170, 187] := by
  obtain ⟨ha, hb, hdispatch⟩ := registerFunctionHandler_spec initialServer 65 fixedBytesHandler
  exact ⟨ha, hb 3 (by decide), (hdispatch ⟨⟨Except.ok 0⟩, ⟨65, []⟩⟩ rfl).1⟩

/-- C4 counterexample: a syntactically valid checkpoint holding four empty
arrays decodes successfully, and the server constructed against it has a
`Coils` array of length 0, not 65536 — `restoreState` adopts the decoded
lengths without validation. -/
theorem registerStore_length_counterexample :
    ∃ t : Server, NewServer (some (gobEncode ⟨[], [], [], []⟩)) = some t ∧
      t.store.Coils.length = 0 ∧ t.store.Coils.length ≠ 65536 := by
  refine ⟨{ initialServer with store := ⟨[], [], [], []⟩ }, rfl, rfl, by decide⟩

/-- C4 (amended): every array has length 65536 after construction without a
checkpoint; `handle` preserves the four lengths whenever the invoked
handler does (and always when the function code is unregistered); and
construction against the checkpoint written by `saveState` of a server
whose arrays have length 65536 again yields lengths 65536. `restoreState`
itself adopts whatever lengths the checkpoint holds. -/
theorem registerStore_length_invariant :
    (∃ t : Server, NewServer none = some t ∧
      t.store.DiscreteInputs.length = 65536 ∧ t.store.Coils.length = 65536 ∧
      t.store.HoldingRegisters.length = 65536 ∧ t.store.InputRegisters.length = 65536) ∧
    (∀ (s : Server) (request : Request),
      (∀ f, s.function request.frame.function = some f →
        (f s.store request.frame).1.DiscreteInputs.length = s.store.DiscreteInputs.length ∧
        (f s.store request.frame).1.Coils.length = s.store.Coils.length ∧
        (f s.store request.frame).1.HoldingRegisters.length = s.store.HoldingRegisters.length ∧
        (f s.store request.frame).1.InputRegisters.length = s.store.InputRegisters.length) →
      ((handle s request).2.store.DiscreteInputs.length = s.store.DiscreteInputs.length ∧
       (handle s request).2.store.Coils.length = s.store.Coils.length ∧
       (handle s request).2.store.HoldingRegisters.length = s.store.HoldingRegisters.length ∧
       (handle s request).2.store.InputRegisters.length = s.store.InputRegisters.length)) ∧
    (∀ s : Server,
      s.store.DiscreteInputs.length = 65536 → s.store.Coils.length = 65536 →
      s.store.HoldingRegisters.length = 65536 → s.store.InputRegisters.length = 65536 →
      ∃ t : Server, NewServer (some (saveState s)) = some t ∧
        t.store.DiscreteInputs.length = 65536 ∧ t.store.Coils.length = 65536 ∧
        t.store.HoldingRegisters.length = 65536 ∧ t.store.InputRegisters.length = 65536) := by
  refine ⟨⟨initialServer, rfl, List.length_replicate 65536 0, List.length_replicate 65536 0,
    List.length_replicate 65536 0, List.length_replicate 65536 0⟩, ?_, ?_⟩
  · intro s request hpres
    cases hfun : s.function request.frame.function with
    | none =>
        rw [handle_none s request hfun]
        exact ⟨rfl, rfl, rfl, rfl⟩
    | some f =>
        rw [handle_some s request f hfun]
        exact hpres f hfun
  · intro s h1 h2 h3 h4
    have h : gobDecode (saveState s) =
        some ⟨s.store.DiscreteInputs, s.store.Coils,
              s.store.HoldingRegisters, s.store.InputRegisters⟩ :=
      gobDecode_gobEncode _
    refine ⟨{ initialServer with store :=
      ⟨s.store.DiscreteInputs, s.store.Coils,
       s.store.HoldingRegisters, s.store.InputRegisters⟩ }, ?_, h1, h2, h3, h4⟩
    simp [NewServer, restoreState, h]

/-- Witness for C4 (amended): handling an unregistered-code request on the
fresh server keeps the `Coils` length, and save-then-construct from the
fresh server keeps length 65536. -/
theorem registerStore_length_invariant_witness :
    ((handle initialServer ⟨⟨Except.ok 0⟩, ⟨99, []⟩⟩).2.store.Coils.length =
      initialServer.store.Coils.length) ∧
    ∃ t : Server, NewServer (some (saveState initialServer)) = some t ∧
      t.store.Coils.length = 65536 := by
  obtain ⟨_, hhandle, hsave⟩ := registerStore_length_invariant
  constructor
  · exact (hhandle initialServer ⟨⟨Except.ok 0⟩, ⟨99, []⟩⟩
      (fun f hf => Option.noConfusion hf)).2.1
  · obtain ⟨t, ht, _, hc, _, _⟩ := hsave initialServer (List.length_replicate 65536 0)
      (List.length_replicate 65536 0) (List.length_replicate 65536 0)
      (List.length_replicate 65536 0)
    exact ⟨t, ht, hc⟩

/-- C6 (amended): a failed connection write is local to its request — the
serializer loop continues and processes every queued request — but the
failure is silently discarded rather than reported: the emitted log lines,
the built response and the successor server state are all independent of
the write outcome, whose value `handler` ignores. -/
theorem write_failure_local :
    (∀ (s : Server) (reqs : List Request), (handler s reqs).2.length = reqs.length) ∧
    (∀ (s : Server) (fr : Frame) (w1 w2 : Except String Nat),
      (handlerStep s ⟨⟨w1⟩, fr⟩).1 = (handlerStep s ⟨⟨w2⟩, fr⟩).1 ∧
      (handlerStep s ⟨⟨w1⟩, fr⟩).2.logs = (handlerStep s ⟨⟨w2⟩, fr⟩).2.logs ∧
      (handlerStep s ⟨⟨w1⟩, fr⟩).2.response = (handlerStep s ⟨⟨w2⟩, fr⟩).2.response) := by
  constructor
  · intro s reqs
    induction reqs generalizing s with
    | nil => rfl
    | cons r rest ih => simp [handler, ih]
  · intro s fr w1 w2
    exact ⟨rfl, rfl, rfl⟩

/-- C6 counterexample: running the loop over a request whose connection
write fails ("broken pipe") followed by a second request, both requests are
still processed, but the complete log output is identical to that of the
run in which the write succeeds, and it never mentions the failure — the
write error is not reported to the logging collaborator. -/
theorem write_failure_not_logged :
    (handler initialServer
      [⟨⟨Except.error "broken pipe"⟩, ⟨99, [7]⟩⟩,
       ⟨⟨Except.ok 12⟩, ⟨99, [8]⟩⟩]).2.length = 2 ∧
    ((handler initialServer
      [⟨⟨Except.error "broken pipe"⟩, ⟨99, [7]⟩⟩,
       ⟨⟨Except.ok 12⟩, ⟨99, [8]⟩⟩]).2.map StepResult.logs).flatten =
      ((handler initialServer
        [⟨⟨Except.ok 12⟩, ⟨99, [7]⟩⟩,
         ⟨⟨Except.ok 12⟩, ⟨99, [8]⟩⟩]).2.map StepResult.logs).flatten ∧
    ((handler initialServer
      [⟨⟨Except.error "broken pipe"⟩, ⟨99, [7]⟩⟩,
       ⟨⟨Except.ok 12⟩, ⟨99, [8]⟩⟩]).2.map StepResult.logs).flatten =
      ["function: 99, value: [7]", "function: 99, value: [8]"] ∧
    "broken pipe" ∉ ["function: 99, value: [7]", "function: 99, value: [8]"] := by
  exact ⟨rfl, rfl, rfl, by decide⟩

end Mbserver
